import Mathlib

/-!
Shallow embedding of the core of `app.py` (deterministic student-data
generator and statistical answer-key computation).

Modelling conventions:
* Python floats are modelled as rationals (`ℚ`); machine integers as `Nat`/`Int`
  with explicit `% 2^32` where the source reduces modulo `2^32`.
* `hashlib.md5` is modelled by a full executable MD5 implementation over the
  UTF-8 bytes of the identifier, so that `seedOf` is a concrete computable
  function of the identifier string, exactly as in
  `seed = int(hashlib.md5(str(user_id).encode('utf-8')).hexdigest(), 16) % 2**32`.
* `np.random.multivariate_normal` after `np.random.seed(seed)` is modelled by
  an abstract deterministic sampler: a function of the mean vector, the
  covariance matrix, the seed, the row index and the column index.  This is
  faithful to the source in the only respect the claims use: after seeding,
  every draw is a pure function of the seed (and the fixed parameters).
* Library statistics (pandas mean/median/std/skew/kurt, `lilliefors`,
  `scipy.stats.kstest`, `scipy.stats.spearmanr`) are modelled as an abstract
  `StatsLib` record of deterministic, possibly-failing (`Except`) functions;
  the control flow of `oblicz_poprawne_statystyki` around them is translated
  from the source line by line.
-/

/-- Bytes of the UTF-8 encoding of a character (models Python `str.encode`). -/
def utf8Bytes (c : Char) : List Nat :=
  let n := c.toNat
  if n < 128 then [n]
  else if n < 2048 then [192 + n / 64, 128 + n % 64]
  else if n < 65536 then [224 + n / 4096, 128 + n / 64 % 64, 128 + n % 64]
  else [240 + n / 262144, 128 + n / 4096 % 64, 128 + n / 64 % 64, 128 + n % 64]

/-- UTF-8 byte sequence of a string (models `s.encode('utf-8')`). -/
def strBytes (s : String) : List Nat := (s.data.map utf8Bytes).flatten

/-- Modulus for 32-bit words. -/
def MOD32 : Nat := 4294967296

/-- Addition modulo 2^32. -/
def wadd (a b : Nat) : Nat := (a + b) % MOD32

/-- Bitwise complement within 32 bits (for `a < 2^32`). -/
def wnot (a : Nat) : Nat := 4294967295 - a

/-- Left rotation of the 32-bit word `x` by `s` (for `x < 2^32`, `0 < s < 32`). -/
def lrot (x s : Nat) : Nat := (x * 2 ^ s + x / 2 ^ (32 - s)) % MOD32

/-- MD5 round function F. -/
def mdF (b c d : Nat) : Nat := (b &&& c) ||| (wnot b &&& d)

/-- MD5 round function G. -/
def mdG (b c d : Nat) : Nat := (d &&& b) ||| (wnot d &&& c)

/-- MD5 round function H. -/
def mdH (b c d : Nat) : Nat := b ^^^ c ^^^ d

/-- MD5 round function I. -/
def mdI (b c d : Nat) : Nat := c ^^^ (b ||| wnot d)

/-- MD5 sine-derived constant table. -/
def K_TAB : List Nat :=
  [0xd76aa478, 0xe8c7b756, 0x242070db, 0xc1bdceee,
   0xf57c0faf, 0x4787c62a, 0xa8304613, 0xfd469501,
   0x698098d8, 0x8b44f7af, 0xffff5bb1, 0x895cd7be,
   0x6b901122, 0xfd987193, 0xa679438e, 0x49b40821,
   0xf61e2562, 0xc040b340, 0x265e5a51, 0xe9b6c7aa,
   0xd62f105d, 0x02441453, 0xd8a1e681, 0xe7d3fbc8,
   0x21e1cde6, 0xc33707d6, 0xf4d50d87, 0x455a14ed,
   0xa9e3e905, 0xfcefa3f8, 0x676f02d9, 0x8d2a4c8a,
   0xfffa3942, 0x8771f681, 0x6d9d6122, 0xfde5380c,
   0xa4beea44, 0x4bdecfa9, 0xf6bb4b60, 0xbebfbc70,
   0x289b7ec6, 0xeaa127fa, 0xd4ef3085, 0x04881d05,
   0xd9d4d039, 0xe6db99e5, 0x1fa27cf8, 0xc4ac5665,
   0xf4292244, 0x432aff97, 0xab9423a7, 0xfc93a039,
   0x655b59c3, 0x8f0ccc92, 0xffeff47d, 0x85845dd1,
   0x6fa87e4f, 0xfe2ce6e0, 0xa3014314, 0x4e0811a1,
   0xf7537e82, 0xbd3af235, 0x2ad7d2bb, 0xeb86d391]

/-- MD5 per-operation shift table. -/
def S_TAB : List Nat :=
  [7, 12, 17, 22, 7, 12, 17, 22, 7, 12, 17, 22, 7, 12, 17, 22,
   5, 9, 14, 20, 5, 9, 14, 20, 5, 9, 14, 20, 5, 9, 14, 20,
   4, 11, 16, 23, 4, 11, 16, 23, 4, 11, 16, 23, 4, 11, 16, 23,
   6, 10, 15, 21, 6, 10, 15, 21, 6, 10, 15, 21, 6, 10, 15, 21]

/-- Little-endian byte expansion: `k` bytes of `x`. -/
def leBytes (k x : Nat) : List Nat := (List.range k).map (fun i => x / 2 ^ (8 * i) % 256)

/-- MD5 message padding: `0x80`, zeros to 56 mod 64, then the 64-bit
little-endian bit length. -/
def padMsg (msg : List Nat) : List Nat :=
  let len := msg.length
  let zeros := (56 + 64 - (len + 1) % 64) % 64
  msg ++ 128 :: List.replicate zeros 0 ++ leBytes 8 (8 * len % 2 ^ 64)

/-- Word `g` (little-endian 32-bit) of a 64-byte chunk. -/
def chunkWord (chunk : List Nat) (g : Nat) : Nat :=
  chunk.getD (4 * g) 0 + 256 * chunk.getD (4 * g + 1) 0 +
    65536 * chunk.getD (4 * g + 2) 0 + 16777216 * chunk.getD (4 * g + 3) 0

/-- One of the 64 MD5 operations on the running state `(a, b, c, d)`. -/
def md5Step (chunk : List Nat) (st : Nat × Nat × Nat × Nat) (i : Nat) :
    Nat × Nat × Nat × Nat :=
  let a := st.1
  let b := st.2.1
  let c := st.2.2.1
  let d := st.2.2.2
  let fg : Nat × Nat :=
    if i < 16 then (mdF b c d, i)
    else if i < 32 then (mdG b c d, (5 * i + 1) % 16)
    else if i < 48 then (mdH b c d, (3 * i + 5) % 16)
    else (mdI b c d, 7 * i % 16)
  let tmp := wadd (wadd (wadd a fg.1) (K_TAB.getD i 0)) (chunkWord chunk fg.2)
  (d, wadd b (lrot tmp (S_TAB.getD i 0)), b, c)

/-- Process one 64-byte chunk into the MD5 state. -/
def md5Chunk (st : Nat × Nat × Nat × Nat) (chunk : List Nat) : Nat × Nat × Nat × Nat :=
  let r := (List.range 64).foldl (md5Step chunk) st
  (wadd st.1 r.1, wadd st.2.1 r.2.1, wadd st.2.2.1 r.2.2.1, wadd st.2.2.2 r.2.2.2)

/-- MD5 digest of a byte sequence, as the list of 16 digest bytes. -/
def md5Digest (msg : List Nat) : List Nat :=
  let padded := padMsg msg
  let cs := (List.range (padded.length / 64)).map (fun i => (padded.drop (64 * i)).take 64)
  let st := cs.foldl md5Chunk (0x67452301, 0xefcdab89, 0x98badcfe, 0x10325476)
  leBytes 4 st.1 ++ leBytes 4 st.2.1 ++ leBytes 4 st.2.2.1 ++ leBytes 4 st.2.2.2

/-- The integer value of the MD5 hex digest of a string, i.e. Python's
`int(hashlib.md5(s.encode('utf-8')).hexdigest(), 16)`: the digest bytes read
as one big-endian integer. -/
def md5Int (s : String) : Nat := (md5Digest (strBytes s)).foldl (fun acc b => acc * 256 + b) 0

/-- Seed derivation from the identifier:
`seed = int(hashlib.md5(str(user_id).encode('utf-8')).hexdigest(), 16) % (2**32)`. -/
def seedOf (user_id : String) : Nat := md5Int user_id % 2 ^ 32

/-- Rounding to the nearest integer with ties to even, the rule of `np.rint`
(and of Python float formatting), the single fixed rounding rule of the
pipeline. -/
def rint (x : ℚ) : ℤ :=
  let f := x.floor
  if x - f < 1 / 2 then f
  else if 1 / 2 < x - f then f + 1
  else if f % 2 = 0 then f else f + 1

/-- Clipping into `[lo, hi]`, the rule of `np.clip(x, lo, hi)`. -/
def clip (x lo hi : ℤ) : ℤ := min (max x lo) hi

/-- A dataset: an ordered sequence of records with 5 integer fields, the
columns being (in order) Ekstrawersja, Neurotyzm, Otwartosc, Ugodowosc,
Sumiennosc. -/
abbrev Dataset := List (Fin 5 → ℤ)

/-- The fixed mean vector `mean = [12, 12, 12, 13, 14]`. -/
def MEAN_VEC : Fin 5 → ℚ := ![12, 12, 12, 13, 14]

/-- The fixed base correlation matrix of the generator. -/
def CORR_MAT : Fin 5 → Fin 5 → ℚ :=
  ![![1, -0.6, 0.5, 0.3, 0.1],
    ![-0.6, 1, -0.4, -0.1, -0.2],
    ![0.5, -0.4, 1, 0.2, 0.2],
    ![0.3, -0.1, 0.2, 1, 0.3],
    ![0.1, -0.2, 0.2, 0.3, 1]]

/-- The fixed per-dimension standard deviation `sd = 3.5`. -/
def SD_SKALA : ℚ := 3.5

/-- The covariance matrix `cov_matrix = np.array(cov_matrix) * (sd ** 2)`. -/
def cov_matrix : Fin 5 → Fin 5 → ℚ := fun i j => CORR_MAT i j * SD_SKALA ^ 2

/-- Abstract deterministic sampler modelling
`np.random.multivariate_normal(mean, cov, size=n)` after `np.random.seed(seed)`:
given the mean vector, the covariance matrix, the seed, a row index and a
column index it returns the raw (pre-rounding) draw.  All randomness is a pure
function of the seed, which is exactly what `np.random.seed(seed)` guarantees
for the draws inside one call. -/
abbrev Sampler := (Fin 5 → ℚ) → (Fin 5 → Fin 5 → ℚ) → Nat → Nat → Fin 5 → ℚ

/-- Translation of `generuj_dane_studenta(user_id, n=100)`: derive the seed
from the MD5 of the identifier, draw `n` rows from the seeded sampler, round
each value to the nearest integer (`np.rint`, ties to even), and clip into
`[5, 20]`. -/
def generuj_dane_studenta (sampler : Sampler) (user_id : String) (n : Nat := 100) :
    Dataset :=
  let seed := seedOf user_id
  (List.range n).map (fun i j => clip (rint (sampler MEAN_VEC cov_matrix seed i j)) 5 20)

/-- Translation of `ocen_sile(r)`. -/
def ocen_sile (r : ℚ) : String :=
  if |r| < 0.1 then "brak"
  else if |r| < 0.3 then "słaby"
  else if |r| < 0.5 then "umiarkowany"
  else "silny"

/-- Translation of `ocen_kierunek(r)`. -/
def ocen_kierunek (r : ℚ) : String :=
  if |r| < 0.1 then "związku"
  else if r > 0 then "pozytywny" else "negatywny"

/-- Digit character of `d` (for `d < 10`). -/
def cyfra (d : Nat) : Char :=
  match d with
  | 0 => '0' | 1 => '1' | 2 => '2' | 3 => '3' | 4 => '4'
  | 5 => '5' | 6 => '6' | 7 => '7' | 8 => '8' | _ => '9'

/-- Numeric value of a digit character. -/
def digVal (c : Char) : Nat :=
  match c with
  | '1' => 1 | '2' => 2 | '3' => 3 | '4' => 4 | '5' => 5
  | '6' => 6 | '7' => 7 | '8' => 8 | '9' => 9 | _ => 0

/-- Whether a character is a decimal digit. -/
def czyCyfra (c : Char) : Prop :=
  c ∈ ['0', '1', '2', '3', '4', '5', '6', '7', '8', '9']

instance czyCyfraDec (c : Char) : Decidable (czyCyfra c) := by
  unfold czyCyfra
  infer_instance

/-- Decimal digit characters of a natural number, most significant first. -/
def natToChars (n : Nat) : List Char :=
  if n < 10 then [cyfra n]
  else natToChars (n / 10) ++ [cyfra (n % 10)]
termination_by n
decreasing_by omega

/-- Two decimal digits of `k < 100`, zero padded. -/
def dwieCyfry (k : Nat) : List Char :=
  if k < 10 then '0' :: natToChars k else natToChars k

/-- Characters of Python's fixed-point formatting of `r` with 2 decimals,
modelling the f-string piece of `f"{r:.2f}"`: the value is rounded
half-to-even at the second decimal, printed with a sign taken from `r`,
an integer part, a dot, and exactly two fraction digits. -/
def pyFormat2Chars (r : ℚ) : List Char :=
  let n := rint (r * 100)
  let m := n.natAbs
  (if r < 0 then ['-'] else []) ++ natToChars (m / 100) ++ '.' :: dwieCyfry (m % 100)

/-- Significance stars of `format_r_z_gwiazdkami`. -/
def gwiazdki (p : ℚ) : String :=
  if p < 0.001 then "***"
  else if p < 0.01 then "**"
  else if p < 0.05 then "*"
  else ""

/-- Character replacement of `.replace('.', ',')`. -/
def kropkaNaPrzecinek (c : Char) : Char := if c = '.' then ',' else c

/-- Translation of `format_r_z_gwiazdkami(r, p)`: the two-decimal rendering of
`r` followed by the significance stars, with every dot replaced by a comma. -/
def format_r_z_gwiazdkami (r p : ℚ) : String :=
  String.mk ((pyFormat2Chars r ++ (gwiazdki p).data).map kropkaNaPrzecinek)

/-- Value of a list of digit characters read in base 10. -/
def charsVal (cs : List Char) : Nat := cs.foldl (fun a c => 10 * a + digVal c) 0

/-- Value of an unsigned decimal string split at the first dot. -/
def parseUnsignedChars (cs : List Char) : ℚ :=
  let ip := cs.takeWhile (fun c => c != '.')
  let fp := (cs.dropWhile (fun c => c != '.')).drop 1
  (charsVal ip : ℚ) + (charsVal fp : ℚ) / 10 ^ fp.length

/-- Decimal parsing (models Python `float` on strings such as `-12.34`). -/
def parseDec (s : String) : ℚ :=
  if s.data.head? = some '-' then -parseUnsignedChars (s.data.drop 1)
  else parseUnsignedChars s.data

/-- Removal of the significance stars from a formatted correlation string. -/
def usunGwiazdki (s : String) : String := String.mk (s.data.filter (fun c => c != '*'))

/-- Replacement of the comma by a period before re-parsing. -/
def przecinkiNaKropki (s : String) : String :=
  String.mk (s.data.map (fun c => if c = ',' then '.' else c))

/-- Values of the answer key: numbers (floats or ints) or strings. -/
inductive Val where
  | q (x : ℚ)
  | s (t : String)
deriving DecidableEq

/-- An answer key: the insertion-ordered dictionary built by
`oblicz_poprawne_statystyki`. -/
abbrev AnswerKey := List (String × Val)

/-- Abstract statistics backend: the library functions the analyzer calls
(pandas `mean/median/std/skew/kurt`, `statsmodels.lilliefors`,
`scipy.stats.kstest`, `scipy.stats.spearmanr`).  Each is a deterministic
function that may fail (`Except`, modelling a raised exception);
`hasStatsmodels` models the import-time `HAS_STATSMODELS` flag. -/
structure StatsLib where
  mean : List ℤ → Except String ℚ
  median : List ℤ → Except String ℚ
  std : List ℤ → Except String ℚ
  skew : List ℤ → Except String ℚ
  kurt : List ℤ → Except String ℚ
  hasStatsmodels : Bool
  lilliefors : List ℤ → Except String (ℚ × ℚ)
  kstest : List ℚ → Except String (ℚ × ℚ)
  spearman : Dataset → Except String ((Fin 5 → Fin 5 → ℚ) × (Fin 5 → Fin 5 → ℚ))

/-- Column `j` of a dataset. -/
def kolumna (df : Dataset) (j : Fin 5) : List ℤ := df.map (fun rec => rec j)

/-- Minimum of a column (`series.min()`). -/
def listaMin (l : List ℤ) : ℤ := l.foldl min (l.headD 0)

/-- Maximum of a column (`series.max()`). -/
def listaMax (l : List ℤ) : ℤ := l.foldl max (l.headD 0)

/-- The `PREFIX_MAP` constant of the source: column name to key prefix, in
insertion order. -/
def PREFIX_MAP : List (String × String) :=
  [("Ekstrawersja", "ekstra"), ("Neurotyzm", "neuro"), ("Otwartosc", "otwar"),
   ("Ugodowosc", "ugoda"), ("Sumiennosc", "sumien")]

/-- The nine section-A entries stored for one column. -/
def wierszeKolumny (pref : String) (m mdn sd sk ku : ℚ) (mn mx : ℤ) (d p : ℚ) :
    List (String × Val) :=
  [(pref ++ "_m", Val.q m), (pref ++ "_mdn", Val.q mdn), (pref ++ "_sd", Val.q sd),
   (pref ++ "_sk", Val.q sk), (pref ++ "_kurt", Val.q ku),
   (pref ++ "_min", Val.q (mn : ℚ)), (pref ++ "_max", Val.q (mx : ℚ)),
   (pref ++ "_d", Val.q d), (pref ++ "_p", Val.q p)]

/-- Section A of `oblicz_poprawne_statystyki` for one column: the seven
descriptive statistics followed by the normality diagnostic.  With
statsmodels present, a failing `lilliefors` call is caught (`except:`) and
replaced by `d_stat, p_val = 0, 1.0`; without statsmodels the column is
standardized (zero standard deviation replaced by 1, the Python `or 1`) and
`stats.kstest(z, 'norm')` is used.  Returns the entries and the normality
p-value of the column. -/
def zScore (m sd : ℚ) (col : List ℤ) : List ℚ :=
  let mianownik := if sd = 0 then 1 else sd
  col.map (fun (x : ℤ) => ((x : ℚ) - m) / mianownik)

def statystykiKolumny (lib : StatsLib) (pref : String) (col : List ℤ) :
    Except String (List (String × Val) × ℚ) := do
  let m ← lib.mean col
  let mdn ← lib.median col
  let sd ← lib.std col
  let sk ← lib.skew col
  let ku ← lib.kurt col
  let dp ←
    if lib.hasStatsmodels then
      match lib.lilliefors col with
      | .ok w => pure w
      | .error _ => pure ((0 : ℚ), (1 : ℚ))
    else
      lib.kstest (zScore m sd col)
  return (wierszeKolumny pref m mdn sd sk ku (listaMin col) (listaMax col) dp.1 dp.2, dp.2)

/-- Section B of the source: the method-selection labels, decided by the
Neuroticism normality p-value (`klucz['neuro_p'] < 0.05`). -/
def metodaEtykiety (pN : ℚ) : List (String × Val) :=
  if pN < 0.05 then
    [("rozklad_typ", Val.s "niespełnienie"), ("korelacja_typ", Val.s "rho-Spearmana")]
  else
    [("rozklad_typ", Val.s "spełnienie"), ("korelacja_typ", Val.s "r-Pearsona")]

/-- The ten correlation pairs of the source, as matrix indices of
`(v1, v2)` in the order Ekstrawersja=0, Neurotyzm=1, Otwartosc=2,
Ugodowosc=3, Sumiennosc=4, with their form keys. -/
def paryKorelacji : List (Fin 5 × Fin 5 × String) :=
  [(1, 0, "corr_neuro_ekstra"), (2, 0, "corr_otwar_ekstra"), (2, 1, "corr_otwar_neuro"),
   (3, 0, "corr_ugoda_ekstra"), (3, 1, "corr_ugoda_neuro"), (3, 2, "corr_ugoda_otwar"),
   (4, 0, "corr_sumien_ekstra"), (4, 1, "corr_sumien_neuro"), (4, 2, "corr_sumien_otwar"),
   (4, 3, "corr_sumien_ugoda")]

/-- Section C of the source: the formatted correlation strings, all taken from
the single Spearman matrix `rho, p_matrix = stats.spearmanr(df[vars_list])`. -/
def korelacjeWpisy (rho pm : Fin 5 → Fin 5 → ℚ) : List (String × Val) :=
  paryKorelacji.map (fun t => (t.2.2, Val.s (format_r_z_gwiazdkami (rho t.1 t.2.1) (pm t.1 t.2.1))))

/-- Section D of the source: the four hypothesis verdicts, again from the
single Spearman matrix.  H1 expects a negative Neurotyzm-Ekstrawersja
relation, H2 a positive Otwartosc-Ekstrawersja one, H3 a negative
Otwartosc-Neurotyzm one; H4 (positive Ugodowosc-Ekstrawersja) first applies
the magnitude gate `abs(r4) < 0.1 or p4 >= 0.05`. -/
def hipotezyWpisy (rho pm : Fin 5 → Fin 5 → ℚ) : List (String × Val) :=
  let r1 := rho 1 0
  let p1 := pm 1 0
  let r2 := rho 2 0
  let p2 := pm 2 0
  let r3 := rho 2 1
  let p3 := pm 2 1
  let r4 := rho 3 0
  let p4 := pm 3 0
  [("h1_sila", Val.s (ocen_sile r1)), ("h1_kierunek", Val.s (ocen_kierunek r1)),
   ("h1_decyzja", Val.s (if p1 < 0.05 ∧ r1 < 0 then "potwierdza" else "nie potwierdza")),
   ("h2_sila", Val.s (ocen_sile r2)), ("h2_kierunek", Val.s (ocen_kierunek r2)),
   ("h2_decyzja", Val.s (if p2 < 0.05 ∧ r2 > 0 then "potwierdza" else "nie potwierdza")),
   ("h3_sila", Val.s (ocen_sile r3)), ("h3_kierunek", Val.s (ocen_kierunek r3)),
   ("h3_decyzja", Val.s (if p3 < 0.05 ∧ r3 < 0 then "potwierdza" else "nie potwierdza")),
   ("h4_sila", Val.s (ocen_sile r4)), ("h4_kierunek", Val.s (ocen_kierunek r4)),
   ("h4_decyzja", Val.s (if |r4| < 0.1 ∨ p4 ≥ 0.05 then "nie potwierdza"
                         else if r4 > 0 then "potwierdza" else "nie potwierdza"))]

/-- Translation of `oblicz_poprawne_statystyki(df)`: per-column descriptive
statistics and normality diagnostics over the columns in `PREFIX_MAP` order,
the method labels, the ten formatted correlations and the four hypothesis
verdicts, assembled in the source's insertion order.  Any uncaught failure of
a backend call aborts the whole computation (`Except.error`). -/
def oblicz_poprawne_statystyki (lib : StatsLib) (df : Dataset) :
    Except String AnswerKey := do
  let s0 ← statystykiKolumny lib "ekstra" (kolumna df 0)
  let s1 ← statystykiKolumny lib "neuro" (kolumna df 1)
  let s2 ← statystykiKolumny lib "otwar" (kolumna df 2)
  let s3 ← statystykiKolumny lib "ugoda" (kolumna df 3)
  let s4 ← statystykiKolumny lib "sumien" (kolumna df 4)
  let rhopm ← lib.spearman df
  return s0.1 ++ s1.1 ++ s2.1 ++ s3.1 ++ s4.1 ++ metodaEtykiety s1.2 ++
    korelacjeWpisy rhopm.1 rhopm.2 ++ hipotezyWpisy rhopm.1 rhopm.2

/-- The nine section-A key names of one column prefix. -/
def kluczeKolumny (pref : String) : List String :=
  [pref ++ "_m", pref ++ "_mdn", pref ++ "_sd", pref ++ "_sk", pref ++ "_kurt",
   pref ++ "_min", pref ++ "_max", pref ++ "_d", pref ++ "_p"]

/-- The full fixed key set of a successful answer key, in insertion order. -/
def wszystkieKlucze : List String :=
  kluczeKolumny "ekstra" ++ kluczeKolumny "neuro" ++ kluczeKolumny "otwar" ++
    kluczeKolumny "ugoda" ++ kluczeKolumny "sumien" ++
    ["rozklad_typ", "korelacja_typ"] ++ paryKorelacji.map (fun t => t.2.2) ++
    ["h1_sila", "h1_kierunek", "h1_decyzja", "h2_sila", "h2_kierunek", "h2_decyzja",
     "h3_sila", "h3_kierunek", "h3_decyzja", "h4_sila", "h4_kierunek", "h4_decyzja"]

/-- A concrete sampler that always draws 0 (used to instantiate theorems on
concrete inputs). -/
def sampler0 : Sampler := fun _ _ _ _ _ => 0

/-- A concrete backend where every call succeeds and the normality p-value is
1/2 (assumption satisfied). -/
def lib0 : StatsLib where
  mean := fun _ => .ok 0
  median := fun _ => .ok 0
  std := fun _ => .ok 1
  skew := fun _ => .ok 0
  kurt := fun _ => .ok 0
  hasStatsmodels := true
  lilliefors := fun _ => .ok (0.1, 0.5)
  kstest := fun _ => .ok (0.1, 0.5)
  spearman := fun _ => .ok (fun _ _ => 0, fun _ _ => 0)

/-- A concrete backend whose normality p-value is 0.01 (assumption violated),
with the same Spearman output as `lib0`. -/
def libNiska : StatsLib where
  mean := fun _ => .ok 3
  median := fun _ => .ok 3
  std := fun _ => .ok 2
  skew := fun _ => .ok 1
  kurt := fun _ => .ok 1
  hasStatsmodels := true
  lilliefors := fun _ => .ok (0.2, 0.01)
  kstest := fun _ => .ok (0.2, 0.01)
  spearman := fun _ => .ok (fun _ _ => 0, fun _ _ => 0)

/-- A concrete backend whose `lilliefors` call always raises. -/
def libZepsutyLilliefors : StatsLib where
  mean := fun _ => .ok 0
  median := fun _ => .ok 0
  std := fun _ => .ok 1
  skew := fun _ => .ok 0
  kurt := fun _ => .ok 0
  hasStatsmodels := true
  lilliefors := fun _ => .error "lilliefors raised"
  kstest := fun _ => .ok (0.1, 0.5)
  spearman := fun _ => .ok (fun _ _ => 0, fun _ _ => 0)

/-- A concrete Spearman matrix realizing the spec example
r(Neurotyzm, Ekstrawersja) = -0.55. -/
def rhoPrz : Fin 5 → Fin 5 → ℚ := fun i j => if i = 1 ∧ j = 0 then -0.55 else 0.25

/-- A concrete p-value matrix, p = 0.0001 everywhere. -/
def pmPrz : Fin 5 → Fin 5 → ℚ := fun _ _ => 0.0001

/-- A concrete backend realizing the spec's hypothesis-verdict example. -/
def libPrz : StatsLib where
  mean := fun _ => .ok 0
  median := fun _ => .ok 0
  std := fun _ => .ok 1
  skew := fun _ => .ok 0
  kurt := fun _ => .ok 0
  hasStatsmodels := true
  lilliefors := fun _ => .ok (0.1, 0.5)
  kstest := fun _ => .ok (0.1, 0.5)
  spearman := fun _ => .ok (rhoPrz, pmPrz)

/-- A tiny concrete dataset (one record, all fields 10). -/
def dfMaly : Dataset := [fun _ => 10]

/-- A concrete 100-record dataset, all fields 10. -/
def dfSto : Dataset := List.replicate 100 (fun _ => 10)


/-- The answer key computed by `lib0` on the 100-record dataset. -/
def kluczSto : AnswerKey := (oblicz_poprawne_statystyki lib0 dfSto).toOption.getD []

/-- The answer key computed by `lib0` on the tiny dataset. -/
def kluczZwykly : AnswerKey := (oblicz_poprawne_statystyki lib0 dfMaly).toOption.getD []

/-- The answer key computed by `libNiska` on the tiny dataset. -/
def kluczNiski : AnswerKey := (oblicz_poprawne_statystyki libNiska dfMaly).toOption.getD []

/-- The answer key computed by `libPrz` on the tiny dataset. -/
def kluczPrzykladowy : AnswerKey := (oblicz_poprawne_statystyki libPrz dfMaly).toOption.getD []

/-- The answer key computed by the backend with a failing `lilliefors`. -/
def kluczZepsuty : AnswerKey :=
  (oblicz_poprawne_statystyki libZepsutyLilliefors dfMaly).toOption.getD []

/-- The 22 keys of the correlation strings and hypothesis entries. -/
def kluczeKorelacjiHipotez : List String :=
  ["corr_neuro_ekstra", "corr_otwar_ekstra", "corr_otwar_neuro", "corr_ugoda_ekstra",
   "corr_ugoda_neuro", "corr_ugoda_otwar", "corr_sumien_ekstra", "corr_sumien_neuro",
   "corr_sumien_otwar", "corr_sumien_ugoda",
   "h1_sila", "h1_kierunek", "h1_decyzja", "h2_sila", "h2_kierunek", "h2_decyzja",
   "h3_sila", "h3_kierunek", "h3_decyzja", "h4_sila", "h4_kierunek", "h4_decyzja"]

/-! Helper lemmas -/

set_option maxRecDepth 8000 in
theorem seed_pusty : seedOf "" = 3975692926 := by decide

theorem clip_mem (x : ℤ) : 5 ≤ clip x 5 20 ∧ clip x 5 20 ≤ 20 := by
  unfold clip
  omega

theorem ratFloor_eq_floor (x : ℚ) : x.floor = ⌊x⌋ := by
  rw [Rat.floor_def']
  exact Rat.floor_def.symm

theorem generuj_length (sampler : Sampler) (user_id : String) (n : Nat) :
    (generuj_dane_studenta sampler user_id n).length = n := by
  simp [generuj_dane_studenta]

theorem generuj_mem_bounds (sampler : Sampler) (user_id : String) (n : Nat) :
    ∀ rec ∈ generuj_dane_studenta sampler user_id n, ∀ j : Fin 5,
      5 ≤ rec j ∧ rec j ≤ 20 := by
  intro rec hrec j
  simp only [generuj_dane_studenta, List.mem_map, List.mem_range] at hrec
  obtain ⟨i, _, rfl⟩ := hrec
  exact clip_mem _

/-! Claim theorems -/

/-- C1: for every identifier, `generate` called twice yields bit-identical
datasets (it is a pure function of the identifier and the seeded sampler),
and `analyze` on identical datasets yields identical answer keys. -/
theorem C1_determinizm (sampler : Sampler) (lib : StatsLib) (user_id : String)
    (df1 df2 : Dataset) (h : df1 = df2) :
    generuj_dane_studenta sampler user_id 100 = generuj_dane_studenta sampler user_id 100 ∧
    oblicz_poprawne_statystyki lib df1 = oblicz_poprawne_statystyki lib df2 :=
  ⟨rfl, by rw [h]⟩

/-- Witness for C1 at a concrete sampler, backend, identifier and dataset. -/
theorem C1_determinizm_witness :
    generuj_dane_studenta sampler0 "x" 100 = generuj_dane_studenta sampler0 "x" 100 ∧
    oblicz_poprawne_statystyki lib0 dfMaly = oblicz_poprawne_statystyki lib0 dfMaly :=
  C1_determinizm sampler0 lib0 "x" dfMaly dfMaly rfl

/-- C2: for every identifier the generated dataset has exactly 100 records of
5 integer fields, and every field value lies in [5, 20]; each value is the
half-to-even rounding of the raw draw, clipped into [5, 20]. -/
theorem C2_zakres_i_rozmiar (sampler : Sampler) (user_id : String) :
    (generuj_dane_studenta sampler user_id 100).length = 100 ∧
    ∀ rec ∈ generuj_dane_studenta sampler user_id 100, ∀ j : Fin 5,
      5 ≤ rec j ∧ rec j ≤ 20 :=
  ⟨generuj_length sampler user_id 100, generuj_mem_bounds sampler user_id 100⟩

/-- Witness for C2: a concrete record of the concrete dataset for identifier
"x", with its bounds supplied by the theorem. -/
theorem C2_zakres_i_rozmiar_witness :
    (generuj_dane_studenta sampler0 "x" 100).length = 100 ∧
    ((fun _ : Fin 5 => (5 : ℤ)) ∈ generuj_dane_studenta sampler0 "x" 100 ∧
      ∀ j : Fin 5, 5 ≤ (fun _ : Fin 5 => (5 : ℤ)) j ∧ (fun _ : Fin 5 => (5 : ℤ)) j ≤ 20) := by
  have hmem : (fun _ : Fin 5 => (5 : ℤ)) ∈ generuj_dane_studenta sampler0 "x" 100 := by
    simp only [generuj_dane_studenta, List.mem_map, List.mem_range]
    refine ⟨0, by norm_num, ?_⟩
    funext j
    simp only [sampler0]
    rw [show rint 0 = 0 by norm_num [rint, ratFloor_eq_floor]]
    decide
  exact ⟨(C2_zakres_i_rozmiar sampler0 "x").1, hmem,
    (C2_zakres_i_rozmiar sampler0 "x").2 _ hmem⟩

/-- C8: the seed is the integer value of the MD5 digest of the identifier's
UTF-8 bytes reduced modulo 2^32, hence always below 2^32, and identical
identifiers always yield identical seeds. -/
theorem C8_ziarno (s t : String) (h : s = t) :
    seedOf s < 2 ^ 32 ∧ seedOf s = md5Int s % 2 ^ 32 ∧ seedOf s = seedOf t :=
  ⟨Nat.mod_lt _ (by norm_num), rfl, by rw [h]⟩

/-- Witness for C8 at the concrete identifier "abc". -/
theorem C8_ziarno_witness :
    seedOf "abc" < 2 ^ 32 ∧ seedOf "abc" = md5Int "abc" % 2 ^ 32 ∧
    seedOf "abc" = seedOf "abc" :=
  C8_ziarno "abc" "abc" rfl

/-- C10: generation succeeds for the empty identifier as well: the seed is the
MD5 of the empty byte sequence reduced mod 2^32 (concretely 3975692926), and
the dataset is a well-formed 100-by-5 table with every value in [5, 20]. -/
theorem C10_pusty_identyfikator (sampler : Sampler) :
    seedOf "" = 3975692926 ∧
    (generuj_dane_studenta sampler "" 100).length = 100 ∧
    ∀ rec ∈ generuj_dane_studenta sampler "" 100, ∀ j : Fin 5,
      5 ≤ rec j ∧ rec j ≤ 20 :=
  ⟨seed_pusty, generuj_length sampler "" 100, generuj_mem_bounds sampler "" 100⟩

/-- Witness for C10: the concrete record of the concrete dataset for the empty
identifier, with its bounds supplied by the theorem. -/
theorem C10_pusty_identyfikator_witness :
    seedOf "" = 3975692926 ∧
    ((fun _ : Fin 5 => (5 : ℤ)) ∈ generuj_dane_studenta sampler0 "" 100 ∧
      ∀ j : Fin 5, 5 ≤ (fun _ : Fin 5 => (5 : ℤ)) j ∧ (fun _ : Fin 5 => (5 : ℤ)) j ≤ 20) := by
  have hmem : (fun _ : Fin 5 => (5 : ℤ)) ∈ generuj_dane_studenta sampler0 "" 100 := by
    simp only [generuj_dane_studenta, List.mem_map, List.mem_range]
    refine ⟨0, by norm_num, ?_⟩
    funext j
    simp only [sampler0]
    rw [show rint 0 = 0 by norm_num [rint, ratFloor_eq_floor]]
    decide
  exact ⟨(C10_pusty_identyfikator sampler0).1, hmem,
    (C10_pusty_identyfikator sampler0).2.2 _ hmem⟩

theorem ocen_sile_spec (r : ℚ) :
    (ocen_sile r = "brak" ↔ |r| < 0.1) ∧
    (ocen_sile r = "słaby" ↔ 0.1 ≤ |r| ∧ |r| < 0.3) ∧
    (ocen_sile r = "umiarkowany" ↔ 0.3 ≤ |r| ∧ |r| < 0.5) ∧
    (ocen_sile r = "silny" ↔ 0.5 ≤ |r|) := by
  unfold ocen_sile
  split_ifs with h1 h2 h3
  · exact ⟨iff_of_true rfl h1,
      iff_of_false (by decide) fun h => absurd h.1 (not_le.mpr h1),
      iff_of_false (by decide) fun h => absurd h.1 (not_le.mpr (h1.trans (by norm_num))),
      iff_of_false (by decide) fun h => absurd h (not_le.mpr (h1.trans (by norm_num)))⟩
  · exact ⟨iff_of_false (by decide) h1,
      iff_of_true rfl ⟨not_lt.mp h1, h2⟩,
      iff_of_false (by decide) fun h => absurd h.1 (not_le.mpr h2),
      iff_of_false (by decide) fun h => absurd h (not_le.mpr (h2.trans (by norm_num)))⟩
  · exact ⟨iff_of_false (by decide) h1,
      iff_of_false (by decide) fun h => absurd h.2 h2,
      iff_of_true rfl ⟨not_lt.mp h2, h3⟩,
      iff_of_false (by decide) fun h => absurd h (not_le.mpr h3)⟩
  · exact ⟨iff_of_false (by decide) h1,
      iff_of_false (by decide) fun h => absurd h.2 h2,
      iff_of_false (by decide) fun h => absurd h.2 h3,
      iff_of_true rfl (not_lt.mp h3)⟩

/-- C6: the strength classifier maps |r| < 0.1 to "brak" (none),
0.1 <= |r| < 0.3 to "słaby" (weak), 0.3 <= |r| < 0.5 to "umiarkowany"
(moderate) and 0.5 <= |r| to "silny" (strong), with the boundary values of the
spec, symmetrically for negative r. -/
theorem C6_klasyfikator_sily (r : ℚ) :
    ((ocen_sile r = "brak" ↔ |r| < 0.1) ∧
      (ocen_sile r = "słaby" ↔ 0.1 ≤ |r| ∧ |r| < 0.3) ∧
      (ocen_sile r = "umiarkowany" ↔ 0.3 ≤ |r| ∧ |r| < 0.5) ∧
      (ocen_sile r = "silny" ↔ 0.5 ≤ |r|)) ∧
    ocen_sile 0.099 = "brak" ∧ ocen_sile 0.1 = "słaby" ∧
    ocen_sile 0.299 = "słaby" ∧ ocen_sile 0.3 = "umiarkowany" ∧
    ocen_sile 0.499 = "umiarkowany" ∧ ocen_sile 0.5 = "silny" ∧
    ocen_sile (-0.099) = "brak" ∧ ocen_sile (-0.1) = "słaby" ∧
    ocen_sile (-0.3) = "umiarkowany" ∧ ocen_sile (-0.5) = "silny" := by
  refine ⟨ocen_sile_spec r, ?_, ?_, ?_, ?_, ?_, ?_, ?_, ?_, ?_, ?_⟩
  · exact (ocen_sile_spec _).1.mpr (by rw [abs_of_nonneg (by norm_num)]; norm_num)
  · exact (ocen_sile_spec _).2.1.mpr
      ⟨by rw [abs_of_nonneg (by norm_num)], by rw [abs_of_nonneg (by norm_num)]; norm_num⟩
  · exact (ocen_sile_spec _).2.1.mpr
      ⟨by rw [abs_of_nonneg (by norm_num)]; norm_num, by rw [abs_of_nonneg (by norm_num)]; norm_num⟩
  · exact (ocen_sile_spec _).2.2.1.mpr
      ⟨by rw [abs_of_nonneg (by norm_num)], by rw [abs_of_nonneg (by norm_num)]; norm_num⟩
  · exact (ocen_sile_spec _).2.2.1.mpr
      ⟨by rw [abs_of_nonneg (by norm_num)]; norm_num, by rw [abs_of_nonneg (by norm_num)]; norm_num⟩
  · exact (ocen_sile_spec _).2.2.2.mpr (by rw [abs_of_nonneg (by norm_num)])
  · exact (ocen_sile_spec _).1.mpr (by rw [abs_of_nonpos (by norm_num)]; norm_num)
  · exact (ocen_sile_spec _).2.1.mpr
      ⟨by rw [abs_of_nonpos (by norm_num)]; norm_num, by rw [abs_of_nonpos (by norm_num)]; norm_num⟩
  · exact (ocen_sile_spec _).2.2.1.mpr
      ⟨by rw [abs_of_nonpos (by norm_num)]; norm_num, by rw [abs_of_nonpos (by norm_num)]; norm_num⟩
  · exact (ocen_sile_spec _).2.2.2.mpr (by rw [abs_of_nonpos (by norm_num)]; norm_num)

theorem except_bind_ok {ε α β : Type} (a : α) (f : α → Except ε β) :
    (Except.ok a >>= f) = f a := rfl

theorem except_bind_err {ε α β : Type} (e : ε) (f : α → Except ε β) :
    ((Except.error e : Except ε α) >>= f) = Except.error e := rfl

theorem except_pure {ε α : Type} (a : α) : (pure a : Except ε α) = Except.ok a := rfl

theorem statystykiKolumny_ok (lib : StatsLib) (pref : String) (col : List ℤ)
    (es : List (String × Val)) (p : ℚ)
    (h : statystykiKolumny lib pref col = .ok (es, p)) :
    ∃ m mdn sd sk ku d,
      lib.mean col = .ok m ∧ lib.median col = .ok mdn ∧ lib.std col = .ok sd ∧
      lib.skew col = .ok sk ∧ lib.kurt col = .ok ku ∧
      es = wierszeKolumny pref m mdn sd sk ku (listaMin col) (listaMax col) d p ∧
      (∀ e, lib.hasStatsmodels = true → lib.lilliefors col = .error e → d = 0 ∧ p = 1) := by
  unfold statystykiKolumny at h
  cases hm : lib.mean col with
  | error e => rw [hm, except_bind_err] at h; cases h
  | ok m =>
  rw [hm, except_bind_ok] at h
  cases hmdn : lib.median col with
  | error e => rw [hmdn, except_bind_err] at h; cases h
  | ok mdn =>
  rw [hmdn, except_bind_ok] at h
  cases hsd : lib.std col with
  | error e => rw [hsd, except_bind_err] at h; cases h
  | ok sd =>
  rw [hsd, except_bind_ok] at h
  cases hsk : lib.skew col with
  | error e => rw [hsk, except_bind_err] at h; cases h
  | ok sk =>
  rw [hsk, except_bind_ok] at h
  cases hku : lib.kurt col with
  | error e => rw [hku, except_bind_err] at h; cases h
  | ok ku =>
  rw [hku, except_bind_ok] at h
  cases hs : lib.hasStatsmodels with
  | true =>
    rw [hs, if_pos rfl] at h
    cases hl : lib.lilliefors col with
    | error e =>
      rw [hl] at h
      have h' : Except.ok (α := List (String × Val) × ℚ) (ε := String)
          (wierszeKolumny pref m mdn sd sk ku (listaMin col) (listaMax col) 0 1, (1 : ℚ)) =
          Except.ok (es, p) := h
      rw [Except.ok.injEq, Prod.mk.injEq] at h'
      obtain ⟨h1, h2⟩ := h'
      exact ⟨m, mdn, sd, sk, ku, 0, rfl, rfl, rfl, rfl, rfl, by rw [← h1, ← h2],
        fun e' _ _ => ⟨rfl, h2.symm⟩⟩
    | ok w =>
      rw [hl] at h
      have h' : Except.ok (α := List (String × Val) × ℚ) (ε := String)
          (wierszeKolumny pref m mdn sd sk ku (listaMin col) (listaMax col) w.1 w.2, w.2) =
          Except.ok (es, p) := h
      rw [Except.ok.injEq, Prod.mk.injEq] at h'
      obtain ⟨h1, h2⟩ := h'
      exact ⟨m, mdn, sd, sk, ku, w.1, rfl, rfl, rfl, rfl, rfl, by rw [← h1, ← h2],
        fun e' _ hco => by cases hco⟩
  | false =>
    rw [hs, if_neg (by simp)] at h
    cases hk : lib.kstest (zScore m sd col) with
    | error e => rw [hk, except_bind_err] at h; cases h
    | ok w =>
      rw [hk, except_bind_ok] at h
      have h' : Except.ok (α := List (String × Val) × ℚ) (ε := String)
          (wierszeKolumny pref m mdn sd sk ku (listaMin col) (listaMax col) w.1 w.2, w.2) =
          Except.ok (es, p) := h
      rw [Except.ok.injEq, Prod.mk.injEq] at h'
      obtain ⟨h1, h2⟩ := h'
      exact ⟨m, mdn, sd, sk, ku, w.1, rfl, rfl, rfl, rfl, rfl, by rw [← h1, ← h2],
        fun e' hst _ => by cases hst⟩

theorem oblicz_ok (lib : StatsLib) (df : Dataset) (k : AnswerKey)
    (h : oblicz_poprawne_statystyki lib df = .ok k) :
    ∃ es0 p0 es1 p1 es2 p2 es3 p3 es4 p4 rho pm,
      statystykiKolumny lib "ekstra" (kolumna df 0) = .ok (es0, p0) ∧
      statystykiKolumny lib "neuro" (kolumna df 1) = .ok (es1, p1) ∧
      statystykiKolumny lib "otwar" (kolumna df 2) = .ok (es2, p2) ∧
      statystykiKolumny lib "ugoda" (kolumna df 3) = .ok (es3, p3) ∧
      statystykiKolumny lib "sumien" (kolumna df 4) = .ok (es4, p4) ∧
      lib.spearman df = .ok (rho, pm) ∧
      k = es0 ++ es1 ++ es2 ++ es3 ++ es4 ++ metodaEtykiety p1 ++
        korelacjeWpisy rho pm ++ hipotezyWpisy rho pm := by
  unfold oblicz_poprawne_statystyki at h
  cases h0 : statystykiKolumny lib "ekstra" (kolumna df 0) with
  | error e => rw [h0, except_bind_err] at h; cases h
  | ok s0 =>
  rw [h0, except_bind_ok] at h
  cases h1 : statystykiKolumny lib "neuro" (kolumna df 1) with
  | error e => rw [h1, except_bind_err] at h; cases h
  | ok s1 =>
  rw [h1, except_bind_ok] at h
  cases h2 : statystykiKolumny lib "otwar" (kolumna df 2) with
  | error e => rw [h2, except_bind_err] at h; cases h
  | ok s2 =>
  rw [h2, except_bind_ok] at h
  cases h3 : statystykiKolumny lib "ugoda" (kolumna df 3) with
  | error e => rw [h3, except_bind_err] at h; cases h
  | ok s3 =>
  rw [h3, except_bind_ok] at h
  cases h4 : statystykiKolumny lib "sumien" (kolumna df 4) with
  | error e => rw [h4, except_bind_err] at h; cases h
  | ok s4 =>
  rw [h4, except_bind_ok] at h
  cases hsp : lib.spearman df with
  | error e => rw [hsp, except_bind_err] at h; cases h
  | ok rp =>
  rw [hsp, except_bind_ok] at h
  have h' : Except.ok (ε := String)
      (s0.1 ++ s1.1 ++ s2.1 ++ s3.1 ++ s4.1 ++ metodaEtykiety s1.2 ++
        korelacjeWpisy rp.1 rp.2 ++ hipotezyWpisy rp.1 rp.2) = Except.ok k := h
  rw [Except.ok.injEq] at h'
  exact ⟨s0.1, s0.2, s1.1, s1.2, s2.1, s2.2, s3.1, s3.2, s4.1, s4.2, rp.1, rp.2,
    by rw [Prod.mk.eta], by rw [Prod.mk.eta], by rw [Prod.mk.eta], by rw [Prod.mk.eta],
    by rw [Prod.mk.eta], by rw [Prod.mk.eta], h'.symm⟩

theorem wiersze_keys (pref : String) (m mdn sd sk ku : ℚ) (mn mx : ℤ) (d p : ℚ) :
    (wierszeKolumny pref m mdn sd sk ku mn mx d p).map Prod.fst = kluczeKolumny pref := rfl

theorem metoda_keys (pN : ℚ) :
    (metodaEtykiety pN).map Prod.fst = ["rozklad_typ", "korelacja_typ"] := by
  unfold metodaEtykiety
  split_ifs <;> rfl

theorem korelacje_keys (rho pm : Fin 5 → Fin 5 → ℚ) :
    (korelacjeWpisy rho pm).map Prod.fst = paryKorelacji.map (fun t => t.2.2) := rfl

theorem hipotezy_keys (rho pm : Fin 5 → Fin 5 → ℚ) :
    (hipotezyWpisy rho pm).map Prod.fst =
      ["h1_sila", "h1_kierunek", "h1_decyzja", "h2_sila", "h2_kierunek", "h2_decyzja",
       "h3_sila", "h3_kierunek", "h3_decyzja", "h4_sila", "h4_kierunek", "h4_decyzja"] := rfl

/-- C9: every successful answer key of a 100-record dataset carries exactly the
same fixed, ordered key set: nine per-variable statistic keys for each of the
five variables, the two method-label keys, the ten correlation keys, and the
twelve hypothesis keys, independently of the dataset's values. -/
theorem C9_staly_zbior_kluczy (lib : StatsLib) (df : Dataset) (k : AnswerKey)
    (hlen : df.length = 100) (h : oblicz_poprawne_statystyki lib df = .ok k) :
    k.map Prod.fst = wszystkieKlucze := by
  obtain ⟨es0, p0, es1, p1, es2, p2, es3, p3, es4, p4, rho, pm,
    h0, h1, h2, h3, h4, hsp, hk⟩ := oblicz_ok lib df k h
  obtain ⟨m0, a0, b0, c0, d0, e0, _, _, _, _, _, he0, _⟩ := statystykiKolumny_ok _ _ _ _ _ h0
  obtain ⟨m1, a1, b1, c1, d1, e1, _, _, _, _, _, he1, _⟩ := statystykiKolumny_ok _ _ _ _ _ h1
  obtain ⟨m2, a2, b2, c2, d2, e2, _, _, _, _, _, he2, _⟩ := statystykiKolumny_ok _ _ _ _ _ h2
  obtain ⟨m3, a3, b3, c3, d3, e3, _, _, _, _, _, he3, _⟩ := statystykiKolumny_ok _ _ _ _ _ h3
  obtain ⟨m4, a4, b4, c4, d4, e4, _, _, _, _, _, he4, _⟩ := statystykiKolumny_ok _ _ _ _ _ h4
  subst hk he0 he1 he2 he3 he4
  simp only [List.map_append, wiersze_keys, metoda_keys, korelacje_keys, hipotezy_keys,
    wszystkieKlucze]

/-- Witness for C9: the concrete backend `lib0` on the concrete 100-record
dataset produces an answer key whose key list is exactly `wszystkieKlucze`. -/
theorem C9_staly_zbior_kluczy_witness :
    dfSto.length = 100 ∧
    oblicz_poprawne_statystyki lib0 dfSto = .ok kluczSto ∧
    kluczSto.map Prod.fst = wszystkieKlucze := by
  have hlen : dfSto.length = 100 := by simp [dfSto]
  have h : oblicz_poprawne_statystyki lib0 dfSto = .ok kluczSto := rfl
  exact ⟨hlen, h, C9_staly_zbior_kluczy lib0 dfSto kluczSto hlen h⟩

theorem lookup_append_of_not_mem {α β : Type} [BEq α] [LawfulBEq α] (key : α)
    (l1 l2 : List (α × β)) (h : key ∉ l1.map Prod.fst) :
    List.lookup key (l1 ++ l2) = List.lookup key l2 := by
  induction l1 with
  | nil => rfl
  | cons a l ih =>
    simp only [List.map_cons, List.mem_cons, not_or] at h
    obtain ⟨hne, hrest⟩ := h
    simp only [List.cons_append, List.lookup]
    rw [beq_eq_false_iff_ne.mpr hne]
    exact ih hrest

/-- C3: the single Spearman matrix computed once is the only correlation
computation used for every correlation string and every hypothesis entry: two
backends that agree on `spearmanr` produce identical correlation and
hypothesis entries for the same dataset, no matter how their normality
diagnostics (and hence the method-selection labels) differ. -/
theorem C3_jedna_korelacja (lib1 lib2 : StatsLib) (df : Dataset) (k1 k2 : AnswerKey)
    (hsp : lib1.spearman df = lib2.spearman df)
    (h1 : oblicz_poprawne_statystyki lib1 df = .ok k1)
    (h2 : oblicz_poprawne_statystyki lib2 df = .ok k2) :
    ∀ key ∈ kluczeKorelacjiHipotez, List.lookup key k1 = List.lookup key k2 := by
  intro key hkey
  obtain ⟨es0, p0, es1, p1, es2, p2, es3, p3, es4, p4, rho, pm,
    g0, g1, g2, g3, g4, gsp, gk⟩ := oblicz_ok lib1 df k1 h1
  obtain ⟨fs0, q0, fs1, q1, fs2, q2, fs3, q3, fs4, q4, rho2, pm2,
    f0, f1, f2, f3, f4, fsp, fk⟩ := oblicz_ok lib2 df k2 h2
  have hrp : rho = rho2 ∧ pm = pm2 := by
    rw [gsp, fsp] at hsp
    rw [Except.ok.injEq, Prod.mk.injEq] at hsp
    exact hsp
  obtain ⟨hr, hp⟩ := hrp
  subst hr hp gk fk
  obtain ⟨m0, a0, b0, c0, d0, e0, _, _, _, _, _, he0, _⟩ := statystykiKolumny_ok _ _ _ _ _ g0
  obtain ⟨m1, a1, b1, c1, d1, e1, _, _, _, _, _, he1, _⟩ := statystykiKolumny_ok _ _ _ _ _ g1
  obtain ⟨m2, a2, b2, c2, d2, e2, _, _, _, _, _, he2, _⟩ := statystykiKolumny_ok _ _ _ _ _ g2
  obtain ⟨m3, a3, b3, c3, d3, e3, _, _, _, _, _, he3, _⟩ := statystykiKolumny_ok _ _ _ _ _ g3
  obtain ⟨m4, a4, b4, c4, d4, e4, _, _, _, _, _, he4, _⟩ := statystykiKolumny_ok _ _ _ _ _ g4
  obtain ⟨n0, u0, v0, w0, x0, y0, _, _, _, _, _, hf0, _⟩ := statystykiKolumny_ok _ _ _ _ _ f0
  obtain ⟨n1, u1, v1, w1, x1, y1, _, _, _, _, _, hf1, _⟩ := statystykiKolumny_ok _ _ _ _ _ f1
  obtain ⟨n2, u2, v2, w2, x2, y2, _, _, _, _, _, hf2, _⟩ := statystykiKolumny_ok _ _ _ _ _ f2
  obtain ⟨n3, u3, v3, w3, x3, y3, _, _, _, _, _, hf3, _⟩ := statystykiKolumny_ok _ _ _ _ _ f3
  obtain ⟨n4, u4, v4, w4, x4, y4, _, _, _, _, _, hf4, _⟩ := statystykiKolumny_ok _ _ _ _ _ f4
  subst he0 he1 he2 he3 he4 hf0 hf1 hf2 hf3 hf4
  have dEkstra : key ∉ kluczeKolumny "ekstra" :=
    (by decide : ∀ x ∈ kluczeKorelacjiHipotez, x ∉ kluczeKolumny "ekstra") key hkey
  have dNeuro : key ∉ kluczeKolumny "neuro" :=
    (by decide : ∀ x ∈ kluczeKorelacjiHipotez, x ∉ kluczeKolumny "neuro") key hkey
  have dOtwar : key ∉ kluczeKolumny "otwar" :=
    (by decide : ∀ x ∈ kluczeKorelacjiHipotez, x ∉ kluczeKolumny "otwar") key hkey
  have dUgoda : key ∉ kluczeKolumny "ugoda" :=
    (by decide : ∀ x ∈ kluczeKorelacjiHipotez, x ∉ kluczeKolumny "ugoda") key hkey
  have dSumien : key ∉ kluczeKolumny "sumien" :=
    (by decide : ∀ x ∈ kluczeKorelacjiHipotez, x ∉ kluczeKolumny "sumien") key hkey
  have dMetoda : key ∉ ["rozklad_typ", "korelacja_typ"] :=
    (by decide : ∀ x ∈ kluczeKorelacjiHipotez, x ∉ ["rozklad_typ", "korelacja_typ"]) key hkey
  simp only [List.append_assoc]
  have bridge : ∀ (w0 w1 w2 w3 w4 met : List (String × Val)),
      key ∉ w0.map Prod.fst → key ∉ w1.map Prod.fst → key ∉ w2.map Prod.fst →
      key ∉ w3.map Prod.fst → key ∉ w4.map Prod.fst → key ∉ met.map Prod.fst →
      List.lookup key (w0 ++ (w1 ++ (w2 ++ (w3 ++ (w4 ++ (met ++
        (korelacjeWpisy rho pm ++ hipotezyWpisy rho pm))))))) =
        List.lookup key (korelacjeWpisy rho pm ++ hipotezyWpisy rho pm) := by
    intro w0 w1 w2 w3 w4 met k0 k1 k2 k3 k4 km
    rw [lookup_append_of_not_mem key w0 _ k0, lookup_append_of_not_mem key w1 _ k1,
      lookup_append_of_not_mem key w2 _ k2, lookup_append_of_not_mem key w3 _ k3,
      lookup_append_of_not_mem key w4 _ k4, lookup_append_of_not_mem key met _ km]
  rw [bridge _ _ _ _ _ _ (by rw [wiersze_keys]; exact dEkstra)
      (by rw [wiersze_keys]; exact dNeuro) (by rw [wiersze_keys]; exact dOtwar)
      (by rw [wiersze_keys]; exact dUgoda) (by rw [wiersze_keys]; exact dSumien)
      (by rw [metoda_keys]; exact dMetoda),
    bridge _ _ _ _ _ _ (by rw [wiersze_keys]; exact dEkstra)
      (by rw [wiersze_keys]; exact dNeuro) (by rw [wiersze_keys]; exact dOtwar)
      (by rw [wiersze_keys]; exact dUgoda) (by rw [wiersze_keys]; exact dSumien)
      (by rw [metoda_keys]; exact dMetoda)]

/-- Witness for C3: the two concrete backends agree on Spearman but differ in
normality p-values (0.5 against 0.01, so their labels differ), and all 22
correlation and hypothesis entries coincide. -/
theorem C3_jedna_korelacja_witness :
    lib0.spearman dfMaly = libNiska.spearman dfMaly ∧
    oblicz_poprawne_statystyki lib0 dfMaly = .ok kluczZwykly ∧
    oblicz_poprawne_statystyki libNiska dfMaly = .ok kluczNiski ∧
    (∀ key ∈ kluczeKorelacjiHipotez, List.lookup key kluczZwykly = List.lookup key kluczNiski) := by
  have hsp : lib0.spearman dfMaly = libNiska.spearman dfMaly := rfl
  have h1 : oblicz_poprawne_statystyki lib0 dfMaly = .ok kluczZwykly := rfl
  have h2 : oblicz_poprawne_statystyki libNiska dfMaly = .ok kluczNiski := rfl
  exact ⟨hsp, h1, h2, C3_jedna_korelacja lib0 libNiska dfMaly kluczZwykly kluczNiski hsp h1 h2⟩

theorem lookup_przeskok (key : String) (w0 w1 w2 w3 w4 met rest : List (String × Val))
    (k0 : key ∉ w0.map Prod.fst) (k1 : key ∉ w1.map Prod.fst) (k2 : key ∉ w2.map Prod.fst)
    (k3 : key ∉ w3.map Prod.fst) (k4 : key ∉ w4.map Prod.fst) (km : key ∉ met.map Prod.fst) :
    List.lookup key (w0 ++ (w1 ++ (w2 ++ (w3 ++ (w4 ++ (met ++ rest)))))) =
      List.lookup key rest := by
  rw [lookup_append_of_not_mem key w0 _ k0, lookup_append_of_not_mem key w1 _ k1,
    lookup_append_of_not_mem key w2 _ k2, lookup_append_of_not_mem key w3 _ k3,
    lookup_append_of_not_mem key w4 _ k4, lookup_append_of_not_mem key met _ km]

theorem h4_regula (r p : ℚ) :
    (if |r| < 0.1 ∨ p ≥ 0.05 then "nie potwierdza"
     else if r > 0 then "potwierdza" else "nie potwierdza") =
    (if p < 0.05 ∧ r > 0 ∧ 0.1 ≤ |r| then "potwierdza" else "nie potwierdza") := by
  by_cases hg : |r| < 0.1 ∨ p ≥ 0.05
  · rw [if_pos hg, if_neg]
    rintro ⟨hp, _, habs⟩
    rcases hg with h | h
    · exact absurd habs (not_le.mpr h)
    · exact absurd hp (not_lt.mpr h)
  · push_neg at hg
    rw [if_neg (by push_neg; exact ⟨hg.1, hg.2⟩)]
    by_cases hr : r > 0
    · rw [if_pos hr, if_pos ⟨hg.2, hr, hg.1⟩]
    · rw [if_neg hr, if_neg (fun hc => hr hc.2.1)]

/-- C4: each hypothesis verdict is "potwierdza" exactly when p < 0.05 and the
observed Spearman sign matches the hypothesis-specific expectation (negative
for H1 Neurotyzm-Ekstrawersja, positive for H2 Otwartosc-Ekstrawersja,
negative for H3 Otwartosc-Neurotyzm, positive for H4 Ugodowosc-Ekstrawersja),
and H4 alone additionally requires |r| >= 0.1; otherwise "nie potwierdza". -/
theorem C4_werdykty_hipotez (lib : StatsLib) (df : Dataset) (k : AnswerKey)
    (rho pm : Fin 5 → Fin 5 → ℚ)
    (hsp : lib.spearman df = .ok (rho, pm))
    (h : oblicz_poprawne_statystyki lib df = .ok k) :
    List.lookup "h1_decyzja" k =
      some (Val.s (if pm 1 0 < 0.05 ∧ rho 1 0 < 0 then "potwierdza" else "nie potwierdza")) ∧
    List.lookup "h2_decyzja" k =
      some (Val.s (if pm 2 0 < 0.05 ∧ rho 2 0 > 0 then "potwierdza" else "nie potwierdza")) ∧
    List.lookup "h3_decyzja" k =
      some (Val.s (if pm 2 1 < 0.05 ∧ rho 2 1 < 0 then "potwierdza" else "nie potwierdza")) ∧
    List.lookup "h4_decyzja" k =
      some (Val.s (if pm 3 0 < 0.05 ∧ rho 3 0 > 0 ∧ 0.1 ≤ |rho 3 0| then "potwierdza"
                   else "nie potwierdza")) := by
  obtain ⟨es0, p0, es1, p1, es2, p2, es3, p3, es4, p4, rho2, pm2,
    g0, g1, g2, g3, g4, gsp, gk⟩ := oblicz_ok lib df k h
  rw [hsp, Except.ok.injEq, Prod.mk.injEq] at gsp
  obtain ⟨hr, hp⟩ := gsp
  subst hr hp gk
  obtain ⟨m0, a0, b0, c0, d0, e0, _, _, _, _, _, he0, _⟩ := statystykiKolumny_ok _ _ _ _ _ g0
  obtain ⟨m1, a1, b1, c1, d1, e1, _, _, _, _, _, he1, _⟩ := statystykiKolumny_ok _ _ _ _ _ g1
  obtain ⟨m2, a2, b2, c2, d2, e2, _, _, _, _, _, he2, _⟩ := statystykiKolumny_ok _ _ _ _ _ g2
  obtain ⟨m3, a3, b3, c3, d3, e3, _, _, _, _, _, he3, _⟩ := statystykiKolumny_ok _ _ _ _ _ g3
  obtain ⟨m4, a4, b4, c4, d4, e4, _, _, _, _, _, he4, _⟩ := statystykiKolumny_ok _ _ _ _ _ g4
  subst he0 he1 he2 he3 he4
  simp only [List.append_assoc]
  refine ⟨?_, ?_, ?_, ?_⟩
  · rw [lookup_przeskok "h1_decyzja" _ _ _ _ _ _ _
        (by rw [wiersze_keys]; decide) (by rw [wiersze_keys]; decide)
        (by rw [wiersze_keys]; decide) (by rw [wiersze_keys]; decide)
        (by rw [wiersze_keys]; decide) (by rw [metoda_keys]; decide),
      lookup_append_of_not_mem _ _ _ (by rw [korelacje_keys]; decide)]
    rfl
  · rw [lookup_przeskok "h2_decyzja" _ _ _ _ _ _ _
        (by rw [wiersze_keys]; decide) (by rw [wiersze_keys]; decide)
        (by rw [wiersze_keys]; decide) (by rw [wiersze_keys]; decide)
        (by rw [wiersze_keys]; decide) (by rw [metoda_keys]; decide),
      lookup_append_of_not_mem _ _ _ (by rw [korelacje_keys]; decide)]
    rfl
  · rw [lookup_przeskok "h3_decyzja" _ _ _ _ _ _ _
        (by rw [wiersze_keys]; decide) (by rw [wiersze_keys]; decide)
        (by rw [wiersze_keys]; decide) (by rw [wiersze_keys]; decide)
        (by rw [wiersze_keys]; decide) (by rw [metoda_keys]; decide),
      lookup_append_of_not_mem _ _ _ (by rw [korelacje_keys]; decide)]
    rfl
  · rw [lookup_przeskok "h4_decyzja" _ _ _ _ _ _ _
        (by rw [wiersze_keys]; decide) (by rw [wiersze_keys]; decide)
        (by rw [wiersze_keys]; decide) (by rw [wiersze_keys]; decide)
        (by rw [wiersze_keys]; decide) (by rw [metoda_keys]; decide),
      lookup_append_of_not_mem _ _ _ (by rw [korelacje_keys]; decide),
      show List.lookup "h4_decyzja" (hipotezyWpisy rho pm) =
        some (Val.s (if |rho 3 0| < 0.1 ∨ pm 3 0 ≥ 0.05 then "nie potwierdza"
                     else if rho 3 0 > 0 then "potwierdza" else "nie potwierdza")) from rfl,
      h4_regula]

/-- Witness for C4 at the concrete backend realizing the spec example
(Neurotyzm-Ekstrawersja r = -0.55, p = 0.0001): hypothesis H1 is confirmed. -/
theorem C4_werdykty_hipotez_witness :
    libPrz.spearman dfMaly = .ok (rhoPrz, pmPrz) ∧
    oblicz_poprawne_statystyki libPrz dfMaly = .ok kluczPrzykladowy ∧
    List.lookup "h1_decyzja" kluczPrzykladowy =
      some (Val.s (if pmPrz 1 0 < 0.05 ∧ rhoPrz 1 0 < 0 then "potwierdza"
                   else "nie potwierdza")) ∧
    List.lookup "h1_decyzja" kluczPrzykladowy = some (Val.s "potwierdza") := by
  have hsp : libPrz.spearman dfMaly = .ok (rhoPrz, pmPrz) := rfl
  have h : oblicz_poprawne_statystyki libPrz dfMaly = .ok kluczPrzykladowy := rfl
  have hc := (C4_werdykty_hipotez libPrz dfMaly kluczPrzykladowy rhoPrz pmPrz hsp h).1
  refine ⟨hsp, h, hc, ?_⟩
  rw [hc, if_pos ⟨by norm_num [pmPrz], by norm_num [rhoPrz]⟩]

/-- Counterexample to C5 as stated: with a backend whose `lilliefors` call
always raises, `oblicz_poprawne_statystyki` does NOT fail; it returns a
complete answer key in which the diagnostic has been silently replaced by the
substitutes D = 0, p = 1.0 (the `except: d_stat, p_val = 0, 1.0` branch). -/
theorem C5_kontrprzyklad :
    libZepsutyLilliefors.hasStatsmodels = true ∧
    libZepsutyLilliefors.lilliefors (kolumna dfMaly 0) = .error "lilliefors raised" ∧
    oblicz_poprawne_statystyki libZepsutyLilliefors dfMaly = .ok kluczZepsuty ∧
    List.lookup "ekstra_d" kluczZepsuty = some (Val.q 0) ∧
    List.lookup "ekstra_p" kluczZepsuty = some (Val.q 1) ∧
    ¬∃ msg, oblicz_poprawne_statystyki libZepsutyLilliefors dfMaly = .error msg := by
  refine ⟨rfl, rfl, rfl, rfl, rfl, ?_⟩
  rintro ⟨msg, hmsg⟩
  rw [show oblicz_poprawne_statystyki libZepsutyLilliefors dfMaly = .ok kluczZepsuty from rfl]
    at hmsg
  cases hmsg

/-- C5 amended: a successful analysis is always a complete answer key (the
full fixed key set) and requires every unguarded backend call (the five
descriptive statistics and `spearmanr`) to have succeeded — their failure is
fatal and yields an explicit error, never a truncated key.  The one exception is
the `lilliefors` call, which is guarded by `try/except`: when statsmodels is
present and `lilliefors` raises, the analysis still succeeds and stores the
substitutes D = 0, p = 1.0 for that variable. -/
theorem C5_bledy_obliczen (lib : StatsLib) (df : Dataset) (k : AnswerKey)
    (h : oblicz_poprawne_statystyki lib df = .ok k) :
    k.map Prod.fst = wszystkieKlucze ∧
    (∀ j : Fin 5, ∃ m, lib.mean (kolumna df j) = .ok m) ∧
    (∃ rp, lib.spearman df = .ok rp) ∧
    (∀ e, lib.hasStatsmodels = true → lib.lilliefors (kolumna df 0) = .error e →
      List.lookup "ekstra_d" k = some (Val.q 0) ∧
      List.lookup "ekstra_p" k = some (Val.q 1)) := by
  obtain ⟨es0, p0, es1, p1, es2, p2, es3, p3, es4, p4, rho, pm,
    g0, g1, g2, g3, g4, gsp, gk⟩ := oblicz_ok lib df k h
  obtain ⟨m0, a0, b0, c0, d0, e0, hm0, _, _, _, _, he0, hsub0⟩ :=
    statystykiKolumny_ok _ _ _ _ _ g0
  obtain ⟨m1, a1, b1, c1, d1, e1, hm1, _, _, _, _, he1, _⟩ :=
    statystykiKolumny_ok _ _ _ _ _ g1
  obtain ⟨m2, a2, b2, c2, d2, e2, hm2, _, _, _, _, he2, _⟩ :=
    statystykiKolumny_ok _ _ _ _ _ g2
  obtain ⟨m3, a3, b3, c3, d3, e3, hm3, _, _, _, _, he3, _⟩ :=
    statystykiKolumny_ok _ _ _ _ _ g3
  obtain ⟨m4, a4, b4, c4, d4, e4, hm4, _, _, _, _, he4, _⟩ :=
    statystykiKolumny_ok _ _ _ _ _ g4
  subst gk he0 he1 he2 he3 he4
  refine ⟨?_, ?_, ⟨(rho, pm), gsp⟩, ?_⟩
  · simp only [List.map_append, wiersze_keys, metoda_keys, korelacje_keys, hipotezy_keys,
      wszystkieKlucze]
  · intro j
    fin_cases j
    exacts [⟨m0, hm0⟩, ⟨m1, hm1⟩, ⟨m2, hm2⟩, ⟨m3, hm3⟩, ⟨m4, hm4⟩]
  · intro e hst herr
    obtain ⟨hd0, hp0⟩ := hsub0 e hst herr
    subst hd0 hp0
    exact ⟨rfl, rfl⟩

/-- Witness for the amended C5 at the concrete backend with a failing
`lilliefors`: the analysis succeeds, the key set is complete, and the
substitutes are stored. -/
theorem C5_bledy_obliczen_witness :
    oblicz_poprawne_statystyki libZepsutyLilliefors dfMaly = .ok kluczZepsuty ∧
    kluczZepsuty.map Prod.fst = wszystkieKlucze ∧
    List.lookup "ekstra_d" kluczZepsuty = some (Val.q 0) ∧
    List.lookup "ekstra_p" kluczZepsuty = some (Val.q 1) := by
  have h : oblicz_poprawne_statystyki libZepsutyLilliefors dfMaly = .ok kluczZepsuty := rfl
  have hc := C5_bledy_obliczen libZepsutyLilliefors dfMaly kluczZepsuty h
  have hsub := hc.2.2.2 "lilliefors raised" rfl rfl
  exact ⟨h, hc.1, hsub.1, hsub.2⟩

/-! Lemmas for the formatting round-trip (C7) -/

theorem digVal_cyfra : ∀ d, d < 10 → digVal (cyfra d) = d := by decide

theorem czyCyfra_cyfra : ∀ d, d < 10 → czyCyfra (cyfra d) := by decide

theorem czyCyfra_ne (c : Char) (h : czyCyfra c) :
    c ≠ '.' ∧ c ≠ ',' ∧ c ≠ '*' ∧ c ≠ '-' := by
  unfold czyCyfra at h
  fin_cases h <;> exact ⟨by decide, by decide, by decide, by decide⟩

theorem natToChars_digits (n : Nat) : ∀ c ∈ natToChars n, czyCyfra c := by
  induction n using Nat.strong_induction_on with
  | _ n ih =>
    rw [natToChars]
    split_ifs with h
    · intro c hc
      rw [List.mem_singleton] at hc
      subst hc
      exact czyCyfra_cyfra n h
    · intro c hc
      rw [List.mem_append] at hc
      rcases hc with hc | hc
      · exact ih (n / 10) (by omega) c hc
      · rw [List.mem_singleton] at hc
        subst hc
        exact czyCyfra_cyfra _ (Nat.mod_lt _ (by norm_num))

theorem natToChars_ne_nil (n : Nat) : natToChars n ≠ [] := by
  rw [natToChars]
  split_ifs with h
  · simp
  · simp

theorem charsVal_from (l : List Char) :
    ∀ a : Nat, l.foldl (fun a c => 10 * a + digVal c) a = a * 10 ^ l.length + charsVal l := by
  induction l with
  | nil => intro a; simp [charsVal]
  | cons c l ih =>
    intro a
    have h1 : charsVal (c :: l) = digVal c * 10 ^ l.length + charsVal l := by
      show List.foldl _ (10 * 0 + digVal c) l = _
      rw [ih]
      ring_nf
    simp only [List.foldl_cons, List.length_cons]
    rw [ih, h1]
    ring

theorem charsVal_append (l1 l2 : List Char) :
    charsVal (l1 ++ l2) = charsVal l1 * 10 ^ l2.length + charsVal l2 := by
  unfold charsVal
  rw [List.foldl_append]
  exact charsVal_from l2 (List.foldl (fun a c => 10 * a + digVal c) 0 l1)

theorem charsVal_natToChars (n : Nat) : charsVal (natToChars n) = n := by
  induction n using Nat.strong_induction_on with
  | _ n ih =>
    rw [natToChars]
    split_ifs with h
    · show (fun a c => 10 * a + digVal c) 0 (cyfra n) = n
      simp [digVal_cyfra n h]
    · rw [charsVal_append, ih (n / 10) (by omega)]
      have : charsVal [cyfra (n % 10)] = n % 10 := by
        show (fun a c => 10 * a + digVal c) 0 (cyfra (n % 10)) = n % 10
        simp [digVal_cyfra _ (Nat.mod_lt _ (by norm_num))]
      rw [this]
      simp only [List.length_singleton, pow_one]
      omega

theorem natToChars_small (n : Nat) (h : n < 10) : natToChars n = [cyfra n] := by
  rw [natToChars, if_pos h]

theorem natToChars_big (n : Nat) (h : ¬n < 10) :
    natToChars n = natToChars (n / 10) ++ [cyfra (n % 10)] := by
  conv_lhs => rw [natToChars]
  rw [if_neg h]

theorem dwieCyfry_length (k : Nat) (h : k < 100) : (dwieCyfry k).length = 2 := by
  unfold dwieCyfry
  split_ifs with hk
  · rw [natToChars_small k hk]
    rfl
  · rw [natToChars_big k hk, natToChars_small (k / 10) (by omega)]
    rfl

theorem dwieCyfry_val (k : Nat) (h : k < 100) : charsVal (dwieCyfry k) = k := by
  unfold dwieCyfry
  split_ifs with hk
  · rw [natToChars_small k hk]
    show 10 * (10 * 0 + digVal '0') + digVal (cyfra k) = k
    rw [digVal_cyfra k hk, show digVal '0' = 0 from rfl]
    omega
  · exact charsVal_natToChars k

theorem dwieCyfry_digits (k : Nat) : ∀ c ∈ dwieCyfry k, czyCyfra c := by
  unfold dwieCyfry
  split_ifs with hk
  · intro c hc
    rw [List.mem_cons] at hc
    rcases hc with hc | hc
    · subst hc; decide
    · exact natToChars_digits k c hc
  · exact natToChars_digits k

theorem data_mk (l : List Char) : (String.mk l).data = l := rfl

theorem takeWhile_append_all (p : Char → Bool) (l1 l2 : List Char)
    (h : ∀ c ∈ l1, p c = true) :
    (l1 ++ l2).takeWhile p = l1 ++ l2.takeWhile p := by
  induction l1 with
  | nil => simp
  | cons a l ih =>
    have ha := h a (List.mem_cons_self a l)
    simp only [List.cons_append, List.takeWhile_cons, ha, if_true]
    rw [ih (fun c hc => h c (List.mem_cons_of_mem a hc))]

theorem dropWhile_append_all (p : Char → Bool) (l1 l2 : List Char)
    (h : ∀ c ∈ l1, p c = true) :
    (l1 ++ l2).dropWhile p = l2.dropWhile p := by
  induction l1 with
  | nil => simp
  | cons a l ih =>
    have ha := h a (List.mem_cons_self a l)
    simp only [List.cons_append, List.dropWhile_cons, ha, if_true]
    exact ih (fun c hc => h c (List.mem_cons_of_mem a hc))

theorem parseUnsigned_format (q rem : Nat) (hrem : rem < 100) :
    parseUnsignedChars (natToChars q ++ '.' :: dwieCyfry rem) = (q : ℚ) + (rem : ℚ) / 100 := by
  have hdig : ∀ c ∈ natToChars q, (fun c => c != '.') c = true := by
    intro c hc
    exact bne_iff_ne.mpr (czyCyfra_ne c (natToChars_digits q c hc)).1
  simp only [parseUnsignedChars]
  rw [takeWhile_append_all _ _ _ hdig, dropWhile_append_all _ _ _ hdig]
  rw [show List.takeWhile (fun c => c != '.') ('.' :: dwieCyfry rem) = [] from by
    simp [List.takeWhile_cons]]
  rw [show List.dropWhile (fun c => c != '.') ('.' :: dwieCyfry rem) = '.' :: dwieCyfry rem
    from by simp [List.dropWhile_cons]]
  rw [show ('.' :: dwieCyfry rem).drop 1 = dwieCyfry rem from rfl]
  rw [List.append_nil, charsVal_natToChars, dwieCyfry_val rem hrem, dwieCyfry_length rem hrem]
  norm_num

theorem rint_nonneg (x : ℚ) (h : 0 ≤ x) : 0 ≤ rint x := by
  simp only [rint]
  have hf : (0 : ℤ) ≤ x.floor := by
    rw [ratFloor_eq_floor]
    exact Int.floor_nonneg.mpr h
  split_ifs <;> omega

theorem rint_nonpos (x : ℚ) (h : x < 0) : rint x ≤ 0 := by
  simp only [rint]
  have hf : x.floor ≤ -1 := by
    rw [ratFloor_eq_floor]
    have h2 : ⌊x⌋ < 0 := by
      rw [Int.floor_lt]
      exact_mod_cast h
    omega
  split_ifs <;> omega

theorem parseDec_pyFormat2 (r : ℚ) :
    parseDec (String.mk (pyFormat2Chars r)) = (rint (r * 100) : ℚ) / 100 := by
  have hrem : (rint (r * 100)).natAbs % 100 < 100 := Nat.mod_lt _ (by norm_num)
  have hm : (((rint (r * 100)).natAbs : ℚ)) =
      100 * (((rint (r * 100)).natAbs / 100 : Nat) : ℚ) +
        (((rint (r * 100)).natAbs % 100 : Nat) : ℚ) := by
    exact_mod_cast (Nat.div_add_mod (rint (r * 100)).natAbs 100).symm
  by_cases hr : r < 0
  · have hn : rint (r * 100) ≤ 0 := rint_nonpos _ (mul_neg_of_neg_of_pos hr (by norm_num))
    have h1 : (((rint (r * 100)).natAbs : ℤ)) = -rint (r * 100) := by omega
    have hcast : ((rint (r * 100) : ℤ) : ℚ) = -(((rint (r * 100)).natAbs : ℕ) : ℚ) := by
      have h2 := congrArg (fun z : ℤ => (z : ℚ)) h1
      simp only [Int.cast_natCast, Int.cast_neg] at h2
      linarith
    simp only [parseDec, pyFormat2Chars, if_pos hr, data_mk, List.singleton_append,
      List.cons_append, List.head?_cons, List.drop_succ_cons, List.drop_zero,
      List.nil_append, if_true]
    rw [parseUnsigned_format _ _ hrem, hcast, hm]
    ring
  · have hn : 0 ≤ rint (r * 100) := rint_nonneg _ (mul_nonneg (not_lt.mp hr) (by norm_num))
    have h1 : (((rint (r * 100)).natAbs : ℤ)) = rint (r * 100) := by omega
    have hcast : ((rint (r * 100) : ℤ) : ℚ) = (((rint (r * 100)).natAbs : ℕ) : ℚ) := by
      have h2 := congrArg (fun z : ℤ => (z : ℚ)) h1
      simp only [Int.cast_natCast] at h2
      linarith
    obtain ⟨c, t, hct⟩ :=
      List.exists_cons_of_ne_nil (natToChars_ne_nil ((rint (r * 100)).natAbs / 100))
    have hcdig : czyCyfra c := natToChars_digits _ c (by rw [hct]; exact List.mem_cons_self c t)
    have hcne : c ≠ '-' := (czyCyfra_ne c hcdig).2.2.2
    have hhead : (natToChars ((rint (r * 100)).natAbs / 100) ++
        '.' :: dwieCyfry ((rint (r * 100)).natAbs % 100)).head? = some c := by
      rw [hct, List.cons_append]
      rfl
    simp only [parseDec, pyFormat2Chars, if_neg hr, data_mk, List.nil_append]
    rw [if_neg (by rw [hhead]; simp [hcne])]
    rw [parseUnsigned_format _ _ hrem, hcast, hm]
    ring

theorem kropka_ne_dot (c : Char) : kropkaNaPrzecinek c ≠ '.' := by
  unfold kropkaNaPrzecinek
  split_ifs with h
  · decide
  · exact h

theorem pyFormat2Chars_classify (r : ℚ) :
    ∀ c ∈ pyFormat2Chars r, c = '-' ∨ c = '.' ∨ czyCyfra c := by
  intro c hc
  simp only [pyFormat2Chars, List.mem_append, List.mem_cons] at hc
  rcases hc with ((hc | hc) | (hc | hc))
  · split_ifs at hc with h
    · rw [List.mem_singleton] at hc
      exact Or.inl hc
    · cases hc
  · exact Or.inr (Or.inr (natToChars_digits _ c hc))
  · exact Or.inr (Or.inl hc)
  · exact Or.inr (Or.inr (dwieCyfry_digits _ c hc))

theorem map_id_of_mem {l : List Char} {f : Char → Char} (h : ∀ c ∈ l, f c = c) :
    l.map f = l := by
  induction l with
  | nil => rfl
  | cons a t ih =>
    rw [List.map_cons, h a (List.mem_cons_self a t),
      ih (fun c hc => h c (List.mem_cons_of_mem a hc))]

theorem string_eq_of_data {s : String} {l : List Char} (h : s.data = l) :
    s = String.mk l := by
  cases s
  cases h
  rfl

theorem czyszczenie (r p : ℚ) :
    (przecinkiNaKropki (usunGwiazdki (format_r_z_gwiazdkami r p))).data = pyFormat2Chars r := by
  simp only [format_r_z_gwiazdkami, usunGwiazdki, przecinkiNaKropki, data_mk]
  rw [List.map_append, List.filter_append]
  have hbody : (List.map kropkaNaPrzecinek (pyFormat2Chars r)).filter (fun c => c != '*') =
      List.map kropkaNaPrzecinek (pyFormat2Chars r) := by
    rw [List.filter_eq_self]
    intro c hc
    rw [List.mem_map] at hc
    obtain ⟨a, ha, rfl⟩ := hc
    rcases pyFormat2Chars_classify r a ha with h | h | h
    · subst h; decide
    · subst h; decide
    · have hne := czyCyfra_ne a h
      rw [show kropkaNaPrzecinek a = a from by unfold kropkaNaPrzecinek; rw [if_neg hne.1]]
      exact bne_iff_ne.mpr hne.2.2.1
  have hstars : ((gwiazdki p).data.map kropkaNaPrzecinek).filter (fun c => c != '*') = [] := by
    unfold gwiazdki
    split_ifs <;> rfl
  rw [hbody, hstars, List.append_nil, List.map_map]
  refine map_id_of_mem ?_
  intro c hc
  rcases pyFormat2Chars_classify r c hc with h | h | h
  · subst h; decide
  · subst h; decide
  · have hne := czyCyfra_ne c h
    simp only [Function.comp_apply, kropkaNaPrzecinek]
    rw [if_neg hne.1, if_neg hne.2.1]

theorem gwiazdki_count (r p : ℚ) :
    (format_r_z_gwiazdkami r p).data.count '*' =
      (if p < 0.001 then 3 else if p < 0.01 then 2 else if p < 0.05 then 1 else 0) := by
  simp only [format_r_z_gwiazdkami, data_mk, List.map_append, List.count_append]
  have hbody : (List.map kropkaNaPrzecinek (pyFormat2Chars r)).count '*' = 0 := by
    rw [List.count_eq_zero]
    intro hc
    rw [List.mem_map] at hc
    obtain ⟨a, ha, hk⟩ := hc
    rcases pyFormat2Chars_classify r a ha with h | h | h
    · subst h; exact absurd hk (by decide)
    · subst h; exact absurd hk (by decide)
    · have hne := czyCyfra_ne a h
      rw [show kropkaNaPrzecinek a = a from by
        unfold kropkaNaPrzecinek; rw [if_neg hne.1]] at hk
      exact hne.2.2.1 hk
  rw [hbody]
  unfold gwiazdki
  split_ifs <;> rfl

theorem dot_not_mem (r p : ℚ) : '.' ∉ (format_r_z_gwiazdkami r p).data := by
  simp only [format_r_z_gwiazdkami, data_mk]
  intro hc
  rw [List.mem_map] at hc
  obtain ⟨a, _, hk⟩ := hc
  exact kropka_ne_dot a hk

theorem comma_mem (r p : ℚ) : ',' ∈ (format_r_z_gwiazdkami r p).data := by
  simp only [format_r_z_gwiazdkami, data_mk]
  rw [List.mem_map]
  refine ⟨'.', ?_, by decide⟩
  rw [List.mem_append]
  left
  simp only [pyFormat2Chars, List.mem_append, List.mem_cons]
  exact Or.inr (Or.inl trivial)

/-- C7: the formatted correlation string is the coefficient at two decimal
places (ties to even) with a comma as decimal separator (no period remains, a
comma is present), followed by stars given by the fixed p-value thresholds
(star count 3, 2, 1, 0 for p below 0.001, 0.01, 0.05, else); replacing the
comma with a period and stripping the stars parses back to the coefficient
rounded to 2 decimals, i.e. `rint (r * 100) / 100`. -/
theorem C7_formatowanie (r p : ℚ) :
    parseDec (przecinkiNaKropki (usunGwiazdki (format_r_z_gwiazdkami r p))) =
      (rint (r * 100) : ℚ) / 100 ∧
    (format_r_z_gwiazdkami r p).data.count '*' =
      (if p < 0.001 then 3 else if p < 0.01 then 2 else if p < 0.05 then 1 else 0) ∧
    '.' ∉ (format_r_z_gwiazdkami r p).data ∧
    ',' ∈ (format_r_z_gwiazdkami r p).data := by
  refine ⟨?_, gwiazdki_count r p, dot_not_mem r p, comma_mem r p⟩
  rw [string_eq_of_data (czyszczenie r p), parseDec_pyFormat2]
